import Mathlib

/-!
# Verification of the CleanTelegram dialog-processing and retry engine

Shallow embedding of `src/clean_telegram/cleaner.py`: the selective filter
(`_dialog_matches_filter`), the per-kind action dispatch (`_process_dialog`
with its helpers `delete_dialog`, `leave_channel`, `leave_legacy_chat`), and
the driver loop with its FloodWait retry controller (`clean_all_dialogs`).

The external Telethon client is modelled as an oracle mapping the history of
issued requests and the next request to an outcome (success or a raised
exception).  Telethon's exception hierarchy is modelled faithfully:
`FloodWaitError` is a subclass of `RPCError`, so an `except RPCError` handler
also catches flood waits, while the loop's `except FloodWaitError` clause is
listed first and therefore takes flood waits before the `except RPCError`
clause.
-/

/-- Structural class of a Telethon entity, as probed by `isinstance` checks:
`telethon.tl.types.Channel`, `Chat`, `User`, or anything else. -/
inductive EntityShape
  | channel
  | chat
  | user
  | other
deriving DecidableEq, Repr

/-- Opaque conversation entity handle.  Only the attributes the cleaner reads
are modelled; `none` models an absent (or `None`) Python attribute. -/
structure Entity where
  shape : EntityShape
  id : Option Int := none
  username : Option String := none
  /-- Models `getattr(entity, "broadcast", False)` — absent attribute reads as false. -/
  broadcast : Bool := false
  title : Option String := none
  firstName : Option String := none
deriving DecidableEq, Repr

/-- Python `datetime`: a comparable instant plus an optional UTC-offset
`tzinfo` (in seconds; `none` = naive datetime).  `value` holds the wall-clock
fields, so the absolute instant of an aware datetime is `value - offset`. -/
structure PyDateTime where
  value : Int
  tz : Option Int := none
deriving DecidableEq, Repr

/-- A dialog as yielded by `client.iter_dialogs()`: the entity, the dialog
`name`, and the date of the dialog's last message (`d.date`). -/
structure Dialog where
  entity : Entity
  name : Option String := none
  date : Option PyDateTime := none
deriving DecidableEq, Repr

/-- Embeds `CleanFilter` from `cleaner.py`: type allow-list, cutoff date, name
pattern, and whitelist of ids/usernames/names to never process. -/
structure CleanFilter where
  types : List String := []
  before_date : Option PyDateTime := none
  name_pattern : Option String := none
  whitelist : List String := []

/-- Requests the cleaner can issue against the Telethon client. -/
inductive ClientCall
  | deleteHistoryReq (peer : Entity) (maxId : Nat) (justClear : Bool) (revoke : Bool)
  | leaveChannelReq (entity : Entity)
  | deleteChatUserReq (chatId : Option Int)
  | deleteDialogCall (entity : Entity)
deriving DecidableEq, Repr

/-- Exceptions a client call can raise, modelling Telethon's hierarchy.
`floodWait` carries `getattr(e, "seconds", ...)` (`none` models an absent or
`None` attribute); `rpc` is any `RPCError` that is not a `FloodWaitError`;
`unexpected` is any other `Exception`. -/
inductive TgError
  | floodWait (seconds : Option Int)
  | rpc
  | unexpected
deriving DecidableEq, Repr

/-- Models `isinstance(e, RPCError)`: in Telethon `FloodWaitError` derives from
`RPCError`, so both are caught by an `except RPCError` handler. -/
def TgError.isRPCError : TgError → Bool
  | .floodWait _ => true
  | .rpc => true
  | .unexpected => false

/-- The external Telethon client, as an oracle: given the requests already
issued (in order) and the next request, it either succeeds (`none`) or raises
an exception (`some e`). -/
structure Client where
  respond : List ClientCall → ClientCall → Option TgError

/-- Issue one request: append it to the trace and ask the oracle. -/
def runCall (cl : Client) (tr : List ClientCall) (c : ClientCall) :
    List ClientCall × Option TgError :=
  (tr ++ [c], cl.respond tr c)

/-- Embeds `str(getattr(entity, "id", ""))`. -/
def entityIdStr (e : Entity) : String :=
  match e.id with
  | some n => toString n
  | none => ""

/-- Embeds `getattr(entity, "username", "") or ""`. -/
def entityUsernameStr (e : Entity) : String :=
  match e.username with
  | some s => s
  | none => ""

/-- The entity-type tag used by the filter's type allow-list
(`cleaner.py` lines 49–56). -/
def entityTypeOf (e : Entity) : String :=
  match e.shape with
  | .channel => if e.broadcast then "channel" else "group"
  | .chat => "group"
  | .user => "user"
  | .other => "unknown"

/-- Embeds `last_msg_date >= compare_date` after the code's normalisation; both sides
always have the same awareness there, aware datetimes compare by absolute
instant, naive ones by wall-clock value. -/
def pyGeDate (a b : PyDateTime) : Bool :=
  match a.tz, b.tz with
  | some x, some y => decide (a.value - x ≥ b.value - y)
  | none, none => decide (a.value ≥ b.value)
  | _, _ => decide (a.value ≥ b.value)

/-- The date predicate of `_dialog_matches_filter` (lines 62–75): `true` when
the dialog is excluded by `before_date`. -/
def dateExcludes (dDate : Option PyDateTime) (before : PyDateTime) : Bool :=
  match dDate with
  | none => false
  | some last =>
      let cmp : PyDateTime :=
        match last.tz with
        | some _ =>
            match before.tz with
            | none => { before with tz := some 0 }
            | some _ => before
        | none =>
            match before.tz with
            | some _ => { before with tz := none }
            | none => before
      pyGeDate last cmp

/-- Truthiness of `f.name_pattern` (`None` and `""` are falsy). -/
def patternActive : Option String → Bool
  | none => false
  | some p => !(p == "")

/-- Python's substring containment `pat in hay`. -/
def containsSub (hay pat : String) : Bool :=
  decide (List.IsInfix pat.toList hay.toList)

/-- Embeds `_dialog_matches_filter(d, entity, title, f)`. -/
def dialog_matches_filter (d : Dialog) (entity : Entity) (title : String)
    (f : CleanFilter) : Bool :=
  let entity_id := entityIdStr entity
  let entity_username := entityUsernameStr entity
  if entity_id ∈ f.whitelist ∨ entity_username ∈ f.whitelist ∨ title ∈ f.whitelist then
    false
  else if f.types ≠ [] ∧ entityTypeOf entity ∉ f.types then
    false
  else if (match f.before_date with
           | some bd => dateExcludes d.date bd
           | none => false) then
    false
  else if patternActive f.name_pattern ∧
      !containsSub title.toLower ((f.name_pattern.getD "").toLower) then
    false
  else
    true

/-- Python string truthiness fallback `a or b` for the title chain. -/
def pyStrOr (a : Option String) (b : String) : String :=
  match a with
  | some s => if s == "" then b else s
  | none => b

/-- Embeds the placeholder title, `(id=...)` built from `getattr(entity, 'id', '?')`. -/
def idPlaceholder (e : Entity) : String :=
  match e.id with
  | some n => "(id=" ++ toString n ++ ")"
  | none => "(id=?)"

/-- Title resolution in `clean_all_dialogs`:
`d.name or entity.title or entity.first_name or f"(id=...)"`. -/
def dialogTitle (d : Dialog) : String :=
  pyStrOr d.name (pyStrOr d.entity.title (pyStrOr d.entity.firstName (idPlaceholder d.entity)))

/-- Embeds `delete_dialog(client, peer, dry_run=...)`: issues
`DeleteHistoryRequest(peer=peer, max_id=0, just_clear=False, revoke=True)`
unless dry-run. -/
def delete_dialog (cl : Client) (tr : List ClientCall) (peer : Entity)
    (dry_run : Bool) : List ClientCall × Option TgError :=
  if dry_run then (tr, none)
  else runCall cl tr (.deleteHistoryReq peer 0 false true)

/-- Embeds `leave_channel(client, entity, dry_run=...)`. -/
def leave_channel (cl : Client) (tr : List ClientCall) (entity : Entity)
    (dry_run : Bool) : List ClientCall × Option TgError :=
  if dry_run then (tr, none)
  else runCall cl tr (.leaveChannelReq entity)

/-- Embeds `leave_legacy_chat(client, entity, dry_run=...)`: issues
`DeleteChatUserRequest(chat_id=entity.id, user_id=InputUserSelf())`. -/
def leave_legacy_chat (cl : Client) (tr : List ClientCall) (entity : Entity)
    (dry_run : Bool) : List ClientCall × Option TgError :=
  if dry_run then (tr, none)
  else runCall cl tr (.deleteChatUserReq entity.id)

/-- Embeds `_process_dialog`: choose and execute the action for one dialog.  For a
legacy `Chat`, an `RPCError` from the primary action (which, per the modelled
hierarchy, includes `FloodWaitError`) triggers the `client.delete_dialog`
fallback once, guarded by `if not dry_run`; other exceptions propagate. -/
def process_dialog (cl : Client) (tr : List ClientCall) (entity : Entity)
    (dry_run : Bool) : List ClientCall × Option TgError :=
  match entity.shape with
  | .channel => leave_channel cl tr entity dry_run
  | .chat =>
      match leave_legacy_chat cl tr entity dry_run with
      | (tr1, none) => (tr1, none)
      | (tr1, some err) =>
          if err.isRPCError then
            if dry_run then (tr1, none)
            else runCall cl tr1 (.deleteDialogCall entity)
          else (tr1, some err)
  | .user => delete_dialog cl tr entity dry_run
  | .other =>
      if dry_run then (tr, none)
      else runCall cl tr (.deleteDialogCall entity)

/-- Constant `max_retries = 5` in `clean_all_dialogs`. -/
def max_retries : Nat := 5

/-- Observable suspension/notification events of the loop: the pacing sleep
`safe_sleep(0.35)` after a success, the flood sleep `asyncio.sleep(wait_s)`,
and an invocation of the `on_floodwait` callback with its four arguments. -/
inductive LoopEvent
  | pacingSleep
  | floodSleep (s : Int)
  | floodCallback (title : String) (waitS : Int) (attempt : Nat) (maxR : Nat)
deriving DecidableEq, Repr

/-- Embeds `int(getattr(e, "seconds", 0) or 0)` for a `FloodWaitError`. -/
def floodWaitSeconds : Option Int → Int
  | none => 0
  | some n => n

/-- Result of running one dialog through the FloodWait retry loop:
final request trace, accumulated events, number of `_process_dialog`
executions (attempts), and the loop's `success` flag. -/
structure RetryResult where
  trace : List ClientCall
  events : List LoopEvent
  execs : Nat
  success : Bool
deriving DecidableEq, Repr

/-- The `while True` retry loop body of `clean_all_dialogs` (lines 204–243).
`fuel` is the structural recursion bound; the loop maintains
`attempt + fuel = max_retries`, so the `fuel = 0` branch is unreachable from
`floodRetry` (when `attempt + 1 < max_retries` and the invariant holds,
`fuel` is a successor).  On success: pacing sleep, `success = True`.  On
`FloodWaitError`: increment `attempt`, clamp the wait to a minimum of 5,
invoke the callback if provided, sleep, and only then test the bound.  On any
other `RPCError` or unexpected exception: abandon immediately. -/
def floodRetryAux (cl : Client) (e : Entity) (title : String)
    (dry_run hasCb : Bool) (fuel attempt : Nat) (tr : List ClientCall)
    (evs : List LoopEvent) (execs : Nat) : RetryResult :=
  match (process_dialog cl tr e dry_run).2 with
  | none =>
      ⟨(process_dialog cl tr e dry_run).1, evs ++ [.pacingSleep], execs + 1, true⟩
  | some (.floodWait secs) =>
      let waitS := max 5 (floodWaitSeconds secs)
      let evs1 := evs
        ++ (if hasCb then [LoopEvent.floodCallback title waitS (attempt + 1) max_retries]
            else [])
        ++ [LoopEvent.floodSleep waitS]
      if attempt + 1 ≥ max_retries then
        ⟨(process_dialog cl tr e dry_run).1, evs1, execs + 1, false⟩
      else
        match fuel with
        | 0 => ⟨(process_dialog cl tr e dry_run).1, evs1, execs + 1, false⟩
        | fuel' + 1 =>
            floodRetryAux cl e title dry_run hasCb fuel' (attempt + 1)
              (process_dialog cl tr e dry_run).1 evs1 (execs + 1)
  | some .rpc =>
      ⟨(process_dialog cl tr e dry_run).1, evs, execs + 1, false⟩
  | some .unexpected =>
      ⟨(process_dialog cl tr e dry_run).1, evs, execs + 1, false⟩

/-- Run one dialog through the retry loop from `attempt = 0`. -/
def floodRetry (cl : Client) (e : Entity) (title : String)
    (dry_run hasCb : Bool) (tr : List ClientCall) (evs : List LoopEvent) :
    RetryResult :=
  floodRetryAux cl e title dry_run hasCb max_retries 0 tr evs 0

/-- Accumulated state of the `clean_all_dialogs` loop.  `processed` and
`skipped` are the two returned counters; `abandoned` (dialogs attempted but
ending with `success = False`), `pulled` (dialogs consumed from
`iter_dialogs`), and `limitStop` (the loop broke on the limit check after
pulling one more dialog) are observability instrumentation. -/
structure RunState where
  processed : Nat
  skipped : Nat
  abandoned : Nat
  pulled : Nat
  limitStop : Bool
  trace : List ClientCall
  events : List LoopEvent
deriving DecidableEq, Repr

/-- One `async for d in client.iter_dialogs()` pass of `clean_all_dialogs`:
pull a dialog, break if the processed cap is hit (`if limit and
processed >= limit`), resolve the title, filter, then run the retry loop and
update the counters (`processed` only on `success`). -/
def cleanGo (cl : Client) (dry_run : Bool) (limit : Int) (f : CleanFilter)
    (hasCb : Bool) : List Dialog → RunState → RunState
  | [], st => st
  | d :: rest, st =>
      let st1 : RunState := { st with pulled := st.pulled + 1 }
      if limit ≠ 0 ∧ (st1.processed : Int) ≥ limit then
        { st1 with limitStop := true }
      else
        let title := dialogTitle d
        if !dialog_matches_filter d d.entity title f then
          cleanGo cl dry_run limit f hasCb rest { st1 with skipped := st1.skipped + 1 }
        else
          let r := floodRetry cl d.entity title dry_run hasCb st1.trace st1.events
          cleanGo cl dry_run limit f hasCb rest
            { st1 with
              trace := r.trace
              events := r.events
              processed := if r.success then st1.processed + 1 else st1.processed
              abandoned := if r.success then st1.abandoned else st1.abandoned + 1 }

/-- Embeds `clean_all_dialogs(client, dry_run=…, limit=…, clean_filter=…,
on_floodwait=…)` over a source list of dialogs; the returned pair is
`(processed, skipped_by_filter)` of the final state. -/
def clean_all_dialogs (cl : Client) (dry_run : Bool) (limit : Int)
    (clean_filter : Option CleanFilter) (hasCb : Bool) (ds : List Dialog) :
    RunState :=
  cleanGo cl dry_run limit (clean_filter.getD ⟨[], none, none, []⟩) hasCb ds
    ⟨0, 0, 0, 0, false, [], []⟩

/-- Callback invocations recorded in an event list: `(attempt, maxRetries)`
argument pairs, in order. -/
def callbackAttempts (evs : List LoopEvent) : List Nat :=
  evs.filterMap fun ev =>
    match ev with
    | .floodCallback _ _ a _ => some a
    | _ => none

/-- The `maxAttempts` argument of each callback invocation, in order. -/
def callbackMaxes (evs : List LoopEvent) : List Nat :=
  evs.filterMap fun ev =>
    match ev with
    | .floodCallback _ _ _ m => some m
    | _ => none

/-- Durations of the flood sleeps recorded in an event list, in order. -/
def floodSleeps (evs : List LoopEvent) : List Int :=
  evs.filterMap fun ev =>
    match ev with
    | .floodSleep s => some s
    | _ => none

/-! ## Concrete fixtures used by witnesses and counterexamples -/

/-- A client whose every request succeeds. -/
def okClient : Client := ⟨fun _ _ => none⟩

/-- A client whose every request raises a non-FloodWait `RPCError`. -/
def rpcClient : Client := ⟨fun _ _ => some TgError.rpc⟩

/-- A client whose every request raises `FloodWaitError(seconds=0)`. -/
def floodClient : Client := ⟨fun _ _ => some (TgError.floodWait (some 0))⟩

/-- A client that raises `FloodWaitError(seconds=30)` on
`DeleteChatUserRequest` and succeeds on everything else. -/
def floodPrimClient : Client :=
  ⟨fun _ c =>
    match c with
    | .deleteChatUserReq _ => some (TgError.floodWait (some 30))
    | _ => none⟩

/-- A broadcast channel entity. -/
def chanEnt : Entity := { shape := .channel, id := some 1, broadcast := true }

/-- A dialog for `chanEnt` named "c". -/
def chanDlg : Dialog := { entity := chanEnt, name := some "c" }

/-- A whitelisted channel dialog named "w". -/
def wlDlg : Dialog :=
  { entity := { shape := .channel, id := some 9, broadcast := true }, name := some "w" }

/-- A legacy group (`Chat`) entity. -/
def chatEnt : Entity := { shape := .chat, id := some 2 }

/-- A dialog for `chatEnt` named "g". -/
def chatDlg : Dialog := { entity := chatEnt, name := some "g" }

/-- An entity of unrecognised shape. -/
def unknownEnt : Entity := { shape := .other, id := some 4 }

/-- A filter whitelisting the name "w". -/
def wlFilter : CleanFilter := { whitelist := ["w"] }

/-- Source of 10 channel conversations of which the first 4 are whitelisted
out by `wlFilter`. -/
def tenDialogs : List Dialog :=
  [wlDlg, wlDlg, wlDlg, wlDlg, chanDlg, chanDlg, chanDlg, chanDlg, chanDlg, chanDlg]

/-! ## Helper lemmas -/

/-- The primary request `_process_dialog` issues for each entity shape. -/
def primaryCallOf (e : Entity) : ClientCall :=
  match e.shape with
  | .channel => .leaveChannelReq e
  | .chat => .deleteChatUserReq e.id
  | .user => .deleteHistoryReq e 0 false true
  | .other => .deleteDialogCall e

/-- In dry-run mode `_process_dialog` issues no request and raises nothing,
for every entity shape. -/
lemma process_dialog_dry (cl : Client) (tr : List ClientCall) (e : Entity) :
    process_dialog cl tr e true = (tr, none) := by
  cases h : e.shape <;> simp [process_dialog, h, leave_channel, leave_legacy_chat,
    delete_dialog]

/-- In dry-run mode the retry loop succeeds on the first attempt with no
request issued. -/
lemma floodRetry_dry (cl : Client) (e : Entity) (title : String) (hasCb : Bool)
    (tr : List ClientCall) (evs : List LoopEvent) :
    floodRetry cl e title true hasCb tr evs =
      ⟨tr, evs ++ [.pacingSleep], 1, true⟩ := by
  unfold floodRetry floodRetryAux
  rw [process_dialog_dry]

/-- In dry-run mode the loop's request trace never grows. -/
lemma cleanGo_dry_trace (cl : Client) (limit : Int) (f : CleanFilter)
    (hasCb : Bool) :
    ∀ (ds : List Dialog) (st : RunState),
      (cleanGo cl true limit f hasCb ds st).trace = st.trace := by
  intro ds
  induction ds with
  | nil => intro st; rfl
  | cons d rest ih =>
      intro st
      rw [cleanGo]
      split
      · rfl
      · dsimp only
        split
        · rw [ih]
        · rw [ih]; simp [floodRetry_dry]

/-! ## C6: dry-run purity -/

/-- C6: for every conversation kind — Channel, LegacyGroup, DirectPeer and
Unknown, including the legacy-group fallback path — when `dry_run` is true no
state-mutating call is issued to the client: `_process_dialog` issues no
request and the whole `clean_all_dialogs` run ends with an empty request
trace. -/
theorem dry_run_purity :
    (∀ (cl : Client) (tr : List ClientCall) (e : Entity),
        process_dialog cl tr e true = (tr, none)) ∧
    (∀ (cl : Client) (limit : Int) (f : CleanFilter) (hasCb : Bool)
        (ds : List Dialog) (st : RunState),
        (cleanGo cl true limit f hasCb ds st).trace = st.trace) ∧
    (∀ (cl : Client) (limit : Int) (f : Option CleanFilter) (hasCb : Bool)
        (ds : List Dialog),
        (clean_all_dialogs cl true limit f hasCb ds).trace = []) :=
  ⟨process_dialog_dry,
   fun cl limit f hasCb ds st => cleanGo_dry_trace cl limit f hasCb ds st,
   fun cl limit f hasCb ds =>
     cleanGo_dry_trace cl limit (f.getD ⟨[], none, none, []⟩) hasCb ds _⟩

/-! ## C7: action selection by kind -/

/-- C7 (amended): the first request `_process_dialog` issues is a
deterministic function of the classified shape — `LeaveChannelRequest` for a
`Channel`, `DeleteChatUserRequest` for a legacy `Chat`,
`DeleteHistoryRequest(revoke=True)` for a `User`, and the generic
`client.delete_dialog` (not `DeleteHistoryRequest(revoke=True)`) for an
unrecognised shape; the shape cases are checked in the order channel, chat,
user, defaulting to unknown. -/
theorem action_selector_by_kind (cl : Client) (tr : List ClientCall) (e : Entity) :
    (∃ rest, (process_dialog cl tr e false).1 = tr ++ primaryCallOf e :: rest) ∧
    (∀ i u b t fn, primaryCallOf ⟨.channel, i, u, b, t, fn⟩ =
        .leaveChannelReq ⟨.channel, i, u, b, t, fn⟩) ∧
    (∀ i u b t fn, primaryCallOf ⟨.chat, i, u, b, t, fn⟩ = .deleteChatUserReq i) ∧
    (∀ i u b t fn, primaryCallOf ⟨.user, i, u, b, t, fn⟩ =
        .deleteHistoryReq ⟨.user, i, u, b, t, fn⟩ 0 false true) ∧
    (∀ i u b t fn, primaryCallOf ⟨.other, i, u, b, t, fn⟩ =
        .deleteDialogCall ⟨.other, i, u, b, t, fn⟩) := by
  refine ⟨?_, fun _ _ _ _ _ => rfl, fun _ _ _ _ _ => rfl,
    fun _ _ _ _ _ => rfl, fun _ _ _ _ _ => rfl⟩
  cases h : e.shape
  · exact ⟨[], by simp [process_dialog, h, primaryCallOf, leave_channel, runCall]⟩
  · simp only [process_dialog, h, primaryCallOf, leave_legacy_chat, runCall,
      Bool.false_eq_true, if_false]
    rcases hr : cl.respond tr (.deleteChatUserReq e.id) with _ | err
    · exact ⟨[], rfl⟩
    · by_cases he : err.isRPCError
      · exact ⟨[.deleteDialogCall e], by simp [hr, he]⟩
      · exact ⟨[], by simp [hr, he]⟩
  · exact ⟨[], by simp [process_dialog, h, primaryCallOf, delete_dialog, runCall]⟩
  · exact ⟨[], by simp [process_dialog, h, primaryCallOf, runCall]⟩

/-- C7 counterexample: an unrecognised-shape entity is cleaned with the
generic `client.delete_dialog` call, not with
`DeleteHistoryRequest(revoke=True)` as the claim states. -/
theorem unknown_kind_generic_delete_counterexample :
    (process_dialog okClient [] unknownEnt false).1 =
      [ClientCall.deleteDialogCall unknownEnt] ∧
    (process_dialog okClient [] unknownEnt false).1 ≠
      [ClientCall.deleteHistoryReq unknownEnt 0 false true] := by
  constructor
  · rfl
  · decide

/-! ## C9: filter taxonomy vs selector taxonomy -/

/-- C9: the filter's type allow-list uses a different taxonomy than the
action selector: a broadcast channel tags as "channel" while a non-broadcast
(mega-group) channel tags as "group", even though both get
`LeaveChannelRequest`; an entity matching none of the three known shapes tags
as "unknown" and is excluded by every non-empty allow-list not containing
"unknown". -/
theorem filter_taxonomy_vs_selector :
    (∀ e : Entity, e.shape = .channel → e.broadcast = true →
        entityTypeOf e = "channel") ∧
    (∀ e : Entity, e.shape = .channel → e.broadcast = false →
        entityTypeOf e = "group") ∧
    (∀ e : Entity, e.shape = .channel → primaryCallOf e = .leaveChannelReq e) ∧
    (∀ (d : Dialog) (e : Entity) (title : String) (f : CleanFilter),
        e.shape = .other → f.types ≠ [] → "unknown" ∉ f.types →
        dialog_matches_filter d e title f = false) := by
  refine ⟨?_, ?_, ?_, ?_⟩
  · intro e hs hb; simp [entityTypeOf, hs, hb]
  · intro e hs hb; simp [entityTypeOf, hs, hb]
  · intro e hs; simp [primaryCallOf, hs]
  · intro d e title f hs hne hnu
    have ht : entityTypeOf e = "unknown" := by simp [entityTypeOf, hs]
    simp only [dialog_matches_filter, ht]
    by_cases hw : entityIdStr e ∈ f.whitelist ∨ entityUsernameStr e ∈ f.whitelist ∨
        title ∈ f.whitelist
    · simp [hw]
    · simp [hw, hne, hnu]

/-- C9 witness: concrete broadcast channel, mega-group channel, and an
unknown-shape entity against the allow-list `["user"]`. -/
theorem filter_taxonomy_vs_selector_witness :
    entityTypeOf chanEnt = "channel" ∧
    entityTypeOf { shape := .channel, id := some 7 } = "group" ∧
    dialog_matches_filter { entity := unknownEnt } unknownEnt "t"
      { types := ["user"] } = false :=
  ⟨filter_taxonomy_vs_selector.1 chanEnt rfl rfl,
   filter_taxonomy_vs_selector.2.1 { shape := .channel, id := some 7 } rfl rfl,
   filter_taxonomy_vs_selector.2.2.2 { entity := unknownEnt } unknownEnt "t"
     { types := ["user"] } rfl (by decide) (by decide)⟩

/-! ## C10: whitelist matching by exact strings, empty string quirk -/

/-- C10: whitelist matching compares the stringified id, the username coerced
to `""` when absent, and the resolved title, by exact string equality; hence
a whitelist containing `""` excludes every conversation whose entity lacks a
username or lacks an id, regardless of all other predicates. -/
theorem empty_string_whitelist_excludes (d : Dialog) (e : Entity)
    (title : String) (f : CleanFilter) (hwl : "" ∈ f.whitelist)
    (h : e.username = none ∨ e.id = none) :
    dialog_matches_filter d e title f = false := by
  unfold dialog_matches_filter
  rw [if_pos]
  rcases h with h | h
  · exact Or.inr (Or.inl (by rw [entityUsernameStr, h]; exact hwl))
  · exact Or.inl (by rw [entityIdStr, h]; exact hwl)

/-- C10 witness: a user entity with an id but no username, a nonempty title,
and a filter whose whitelist is `[""]` and whose other predicates would all
accept the dialog. -/
theorem empty_string_whitelist_excludes_witness :
    dialog_matches_filter { entity := { shape := .user, id := some 3 } }
      { shape := .user, id := some 3 } "t" { whitelist := [""] } = false :=
  empty_string_whitelist_excludes _ _ _ _ (by decide) (Or.inl rfl)

/-! ## C1: progress accounting -/

/-- Loop-level accounting: every pulled dialog lands in exactly one of
`skipped`, `processed`, `abandoned`, or is the single dialog pulled and
discarded when the limit check breaks the loop. -/
lemma cleanGo_accounting (cl : Client) (dry_run : Bool) (limit : Int)
    (f : CleanFilter) (hasCb : Bool) :
    ∀ (ds : List Dialog) (st : RunState), st.limitStop = false →
      st.pulled = st.processed + st.skipped + st.abandoned →
      (cleanGo cl dry_run limit f hasCb ds st).pulled =
        (cleanGo cl dry_run limit f hasCb ds st).processed +
        (cleanGo cl dry_run limit f hasCb ds st).skipped +
        (cleanGo cl dry_run limit f hasCb ds st).abandoned +
        (if (cleanGo cl dry_run limit f hasCb ds st).limitStop then 1 else 0) := by
  intro ds
  induction ds with
  | nil =>
      intro st hstop hacc
      simp [cleanGo, hstop, hacc]
  | cons d rest ih =>
      intro st hstop hacc
      rw [cleanGo]
      split
      · simp [hacc]
      · dsimp only
        split
        · exact ih _ hstop (by simp [hacc]; omega)
        · rcases hs : (floodRetry cl d.entity (dialogTitle d) dry_run hasCb
              st.trace st.events).success with _ | _
          · exact ih _ hstop (by simp [hs, hacc]; omega)
          · exact ih _ hstop (by simp [hs, hacc]; omega)

/-- C1 (amended): in every run each pulled conversation is counted in at most
one of the two returned counters; `skipped` counts the filtered-out ones and
`processed` only those whose action attempt ended with `success`, while
conversations abandoned after a permanent error, an unexpected error, or
exhausted rate-limit retries — and the one conversation pulled only to
trigger the limit check — are counted in neither, so
`pulled = processed + skipped + abandoned + (1 if the limit break consumed a
dialog)`, and in particular `processed + skipped ≤ pulled`. -/
theorem clean_accounting_invariant (cl : Client) (dry_run : Bool) (limit : Int)
    (f : Option CleanFilter) (hasCb : Bool) (ds : List Dialog) :
    (clean_all_dialogs cl dry_run limit f hasCb ds).pulled =
      (clean_all_dialogs cl dry_run limit f hasCb ds).processed +
      (clean_all_dialogs cl dry_run limit f hasCb ds).skipped +
      (clean_all_dialogs cl dry_run limit f hasCb ds).abandoned +
      (if (clean_all_dialogs cl dry_run limit f hasCb ds).limitStop then 1 else 0) ∧
    (clean_all_dialogs cl dry_run limit f hasCb ds).processed +
      (clean_all_dialogs cl dry_run limit f hasCb ds).skipped ≤
      (clean_all_dialogs cl dry_run limit f hasCb ds).pulled := by
  have h := cleanGo_accounting cl dry_run limit (f.getD ⟨[], none, none, []⟩) hasCb ds
    ⟨0, 0, 0, 0, false, [], []⟩ rfl rfl
  refine ⟨h, ?_⟩
  rw [clean_all_dialogs] at *
  omega

/-- C1 counterexample: a single conversation whose action raises a permanent
`RPCError` is counted in neither `processed` nor `skipped`, so
`processed + skipped` is 0 while one conversation was pulled — and it is not
counted in `processed` as the claim states. -/
theorem clean_accounting_counterexample :
    (clean_all_dialogs rpcClient false 0 none true [chanDlg]).processed +
        (clean_all_dialogs rpcClient false 0 none true [chanDlg]).skipped ≠
      (clean_all_dialogs rpcClient false 0 none true [chanDlg]).pulled ∧
    (clean_all_dialogs rpcClient false 0 none true [chanDlg]).processed = 0 ∧
    (clean_all_dialogs rpcClient false 0 none true [chanDlg]).pulled = 1 := by
  refine ⟨by decide, by decide, by decide⟩

/-! ## C3: the limit caps processed, with one extra pull -/

/-- Loop-level cap: once `processed` may not exceed the positive limit on
entry, it never does. -/
lemma cleanGo_processed_cap (cl : Client) (dry_run : Bool) (f : CleanFilter)
    (hasCb : Bool) (limit : Int) (hlim : 0 < limit) :
    ∀ (ds : List Dialog) (st : RunState), (st.processed : Int) ≤ limit →
      ((cleanGo cl dry_run limit f hasCb ds st).processed : Int) ≤ limit := by
  intro ds
  induction ds with
  | nil => intro st h; exact h
  | cons d rest ih =>
      intro st h
      rw [cleanGo]
      split
      · exact h
      · next hnb =>
        dsimp only
        split
        · exact ih _ (by simpa using h)
        · refine ih _ ?_
          rcases hs : (floodRetry cl d.entity (dialogTitle d) dry_run hasCb
              st.trace st.events).success with _ | _
          · simpa [hs] using h
          · have : ¬ ((st.processed : Int) ≥ limit) := fun hge =>
              hnb ⟨by omega, by simpa using hge⟩
            simp only [hs, if_true]
            push_cast
            omega

/-- C3 (amended): `limit` caps the processed count, not the conversations
inspected — filtered-out conversations never count against it and, for
`limit > 0`, the final processed count never exceeds `limit`; but once the
cap is reached the loop still pulls one further conversation from the source
before breaking, so the spec's 10-conversation scenario (4 whitelisted out,
`limit = 3`) returns `processed = 3` and `skipped = 4` having pulled exactly
8 conversations, not 7 (the remaining 2 are never pulled). -/
theorem limit_caps_processed (cl : Client) (dry_run : Bool)
    (f : Option CleanFilter) (hasCb : Bool) (ds : List Dialog) (limit : Int)
    (hlim : 0 < limit) :
    ((clean_all_dialogs cl dry_run limit f hasCb ds).processed : Int) ≤ limit ∧
    (clean_all_dialogs okClient false 3 (some wlFilter) true tenDialogs).processed = 3 ∧
    (clean_all_dialogs okClient false 3 (some wlFilter) true tenDialogs).skipped = 4 ∧
    (clean_all_dialogs okClient false 3 (some wlFilter) true tenDialogs).pulled = 8 :=
  ⟨cleanGo_processed_cap cl dry_run (f.getD ⟨[], none, none, []⟩) hasCb limit hlim ds
      ⟨0, 0, 0, 0, false, [], []⟩ (by simp; omega),
   by decide, by decide, by decide⟩

/-- C3 witness: the cap at `limit = 1` on a two-channel source. -/
theorem limit_caps_processed_witness :
    ((clean_all_dialogs okClient false 1 none true [chanDlg, chanDlg]).processed : Int) ≤ 1 ∧
    (clean_all_dialogs okClient false 3 (some wlFilter) true tenDialogs).processed = 3 ∧
    (clean_all_dialogs okClient false 3 (some wlFilter) true tenDialogs).skipped = 4 ∧
    (clean_all_dialogs okClient false 3 (some wlFilter) true tenDialogs).pulled = 8 :=
  limit_caps_processed okClient false none true [chanDlg, chanDlg] 1 (by decide)

/-- C3 counterexample: in the spec's scenario — 10 channel conversations, the
first 4 whitelisted out, `limit = 3` — the run does return `processed = 3`
and `skipped = 4`, but it pulls 8 conversations from the source, not the 7
the claim states. -/
theorem limit_pulls_counterexample :
    (clean_all_dialogs okClient false 3 (some wlFilter) true tenDialogs).processed = 3 ∧
    (clean_all_dialogs okClient false 3 (some wlFilter) true tenDialogs).skipped = 4 ∧
    (clean_all_dialogs okClient false 3 (some wlFilter) true tenDialogs).pulled ≠ 7 ∧
    (clean_all_dialogs okClient false 3 (some wlFilter) true tenDialogs).pulled = 8 := by
  refine ⟨by decide, by decide, by decide, by decide⟩

/-! ## C4 and C5: the FloodWait retry controller -/

/-- Event pattern produced by consecutive FloodWait failures with waits `ws`,
starting after `a` earlier attempts: for each failure the callback fires and
then the sleep happens. -/
def floodEvents (title : String) : List Int → Nat → List LoopEvent
  | [], _ => []
  | w :: ws, a =>
      .floodCallback title w (a + 1) max_retries :: .floodSleep w ::
        floodEvents title ws (a + 1)

/-- Unfolding of one retry iteration whose attempt fails with FloodWait and
exhausts the bound. -/
lemma floodRetryAux_flood_break (cl : Client) (e : Entity) (title : String)
    (fuel attempt : Nat) (tr : List ClientCall) (evs : List LoopEvent)
    (execs : Nat) (s : Option Int)
    (hs : (process_dialog cl tr e false).2 = some (TgError.floodWait s))
    (hge : attempt + 1 ≥ max_retries) :
    floodRetryAux cl e title false true fuel attempt tr evs execs =
      ⟨(process_dialog cl tr e false).1,
        evs ++ [LoopEvent.floodCallback title (max 5 (floodWaitSeconds s))
            (attempt + 1) max_retries]
          ++ [LoopEvent.floodSleep (max 5 (floodWaitSeconds s))],
        execs + 1, false⟩ := by
  rw [floodRetryAux.eq_def, hs]
  simp [hge]

/-- Unfolding of one retry iteration whose attempt fails with FloodWait and
retries. -/
lemma floodRetryAux_flood_step (cl : Client) (e : Entity) (title : String)
    (fuel attempt : Nat) (tr : List ClientCall) (evs : List LoopEvent)
    (execs : Nat) (s : Option Int)
    (hs : (process_dialog cl tr e false).2 = some (TgError.floodWait s))
    (hlt : ¬attempt + 1 ≥ max_retries) :
    floodRetryAux cl e title false true (fuel + 1) attempt tr evs execs =
      floodRetryAux cl e title false true fuel (attempt + 1)
        (process_dialog cl tr e false).1
        (evs ++ [LoopEvent.floodCallback title (max 5 (floodWaitSeconds s))
            (attempt + 1) max_retries]
          ++ [LoopEvent.floodSleep (max 5 (floodWaitSeconds s))])
        (execs + 1) := by
  rw [floodRetryAux.eq_def, hs]
  simp [hlt]

/-- Unfolding of a retry iteration whose attempt succeeds. -/
lemma floodRetryAux_success (cl : Client) (e : Entity) (title : String)
    (dry_run hasCb : Bool) (fuel attempt : Nat) (tr : List ClientCall)
    (evs : List LoopEvent) (execs : Nat)
    (hs : (process_dialog cl tr e dry_run).2 = none) :
    floodRetryAux cl e title dry_run hasCb fuel attempt tr evs execs =
      ⟨(process_dialog cl tr e dry_run).1, evs ++ [.pacingSleep],
        execs + 1, true⟩ := by
  rw [floodRetryAux.eq_def, hs]

/-- Unfolding of a retry iteration whose attempt raises a non-FloodWait
RPCError: immediate abandonment, no callback, no sleep. -/
lemma floodRetryAux_rpc (cl : Client) (e : Entity) (title : String)
    (dry_run hasCb : Bool) (fuel attempt : Nat) (tr : List ClientCall)
    (evs : List LoopEvent) (execs : Nat)
    (hs : (process_dialog cl tr e dry_run).2 = some TgError.rpc) :
    floodRetryAux cl e title dry_run hasCb fuel attempt tr evs execs =
      ⟨(process_dialog cl tr e dry_run).1, evs, execs + 1, false⟩ := by
  rw [floodRetryAux.eq_def, hs]

/-- A conversation that is rate-limited on every attempt runs the retry loop
to exhaustion: one callback/sleep pair (with clamped wait ≥ 5) per attempt,
`fuel` further attempts from any reachable loop state, ending unsuccessful. -/
lemma floodRetryAux_allFlood (cl : Client) (e : Entity) (title : String)
    (hfl : ∀ tr2, ∃ s,
        (process_dialog cl tr2 e false).2 = some (TgError.floodWait s)) :
    ∀ (fuel attempt : Nat) (tr : List ClientCall) (evs : List LoopEvent)
      (execs : Nat),
      attempt + fuel = max_retries → 0 < fuel →
      ∃ (ws : List Int) (tr2 : List ClientCall),
        ws.length = fuel ∧ (∀ w ∈ ws, 5 ≤ w) ∧
        floodRetryAux cl e title false true fuel attempt tr evs execs =
          ⟨tr2, evs ++ floodEvents title ws attempt, execs + fuel, false⟩ := by
  intro fuel
  induction fuel with
  | zero => intro attempt tr evs execs _ h0; exact absurd h0 (by omega)
  | succ f ih =>
      intro attempt tr evs execs hinv _
      obtain ⟨s, hs⟩ := hfl tr
      by_cases hbr : attempt + 1 ≥ max_retries
      · have hf : f = 0 := by simp only [max_retries] at hinv hbr; omega
        subst hf
        refine ⟨[max 5 (floodWaitSeconds s)], (process_dialog cl tr e false).1,
          rfl, ?_, ?_⟩
        · intro w hw
          simp only [List.mem_singleton] at hw
          subst hw
          exact le_max_left _ _
        · rw [floodRetryAux_flood_break cl e title 1 attempt tr evs execs s hs hbr]
          simp [floodEvents]
      · have hf : 0 < f := by simp only [max_retries] at hinv hbr ⊢; omega
        obtain ⟨ws, tr2, hlen, hws, heq⟩ := ih (attempt + 1)
          (process_dialog cl tr e false).1
          (evs ++ [LoopEvent.floodCallback title (max 5 (floodWaitSeconds s))
              (attempt + 1) max_retries]
            ++ [LoopEvent.floodSleep (max 5 (floodWaitSeconds s))])
          (execs + 1) (by omega) hf
        refine ⟨max 5 (floodWaitSeconds s) :: ws, tr2, by simp [hlen], ?_, ?_⟩
        · intro w hw
          rcases List.mem_cons.1 hw with hw | hw
          · subst hw; exact le_max_left _ _
          · exact hws w hw
        · rw [floodRetryAux_flood_step cl e title f attempt tr evs execs s hs hbr,
            heq]
          have harith : execs + 1 + f = execs + (f + 1) := by omega
          simp [floodEvents, List.append_assoc, harith]

/-- Destructuring for a list known to have five elements. -/
lemma list_len5 {α : Type} {ws : List α} (h : ws.length = 5) :
    ∃ a b c d e, ws = [a, b, c, d, e] := by
  rcases ws with _ | ⟨a, _ | ⟨b, _ | ⟨c, _ | ⟨d, _ | ⟨e, _ | ⟨g, t⟩⟩⟩⟩⟩⟩ <;>
    simp_all

/-- C4: a conversation whose action raises a rate-limit error on every
attempt is abandoned after exactly 5 action attempts, and the rate-limit
callback is invoked exactly 5 times with strictly increasing attempt values
1..5 and `max_retries = 5` on every call. -/
theorem retry_bound_always_floodwait (cl : Client) (e : Entity)
    (title : String) (tr : List ClientCall)
    (hfl : ∀ tr2, ∃ s,
        (process_dialog cl tr2 e false).2 = some (TgError.floodWait s)) :
    (floodRetry cl e title false true tr []).success = false ∧
    (floodRetry cl e title false true tr []).execs = 5 ∧
    callbackAttempts (floodRetry cl e title false true tr []).events =
      [1, 2, 3, 4, 5] ∧
    callbackMaxes (floodRetry cl e title false true tr []).events =
      [5, 5, 5, 5, 5] := by
  obtain ⟨ws, tr2, hlen, hws, heq⟩ :=
    floodRetryAux_allFlood cl e title hfl 5 0 tr [] 0 rfl (by omega)
  obtain ⟨w1, w2, w3, w4, w5, rfl⟩ := list_len5 hlen
  rw [show floodRetry cl e title false true tr [] =
      floodRetryAux cl e title false true 5 0 tr [] 0 from rfl, heq]
  simp [floodEvents, callbackAttempts, callbackMaxes, max_retries]

/-- C4 witness: a broadcast channel against a client that always raises
`FloodWaitError(seconds=0)`. -/
theorem retry_bound_always_floodwait_witness :
    (floodRetry floodClient chanEnt "c" false true [] []).success = false ∧
    (floodRetry floodClient chanEnt "c" false true [] []).execs = 5 ∧
    callbackAttempts (floodRetry floodClient chanEnt "c" false true [] []).events =
      [1, 2, 3, 4, 5] ∧
    callbackMaxes (floodRetry floodClient chanEnt "c" false true [] []).events =
      [5, 5, 5, 5, 5] :=
  retry_bound_always_floodwait floodClient chanEnt "c" []
    (fun _ => ⟨some 0, rfl⟩)

/-- C5 (amended): on each rate-limit error the attempt counter is
incremented, then the clamped wait (minimum 5) and the callback happen
unconditionally — callback immediately before sleep — and only afterwards is
the bound checked; so on a conversation rate-limited on every attempt the
callback/sleep pair occurs on all 5 attempts, including after the final,
bound-exhausting failure, after which the conversation is abandoned. -/
theorem floodwait_wait_and_callback_every_attempt (cl : Client) (e : Entity)
    (title : String) (tr : List ClientCall)
    (hfl : ∀ tr2, ∃ s,
        (process_dialog cl tr2 e false).2 = some (TgError.floodWait s)) :
    ∃ w1 w2 w3 w4 w5 : Int,
      5 ≤ w1 ∧ 5 ≤ w2 ∧ 5 ≤ w3 ∧ 5 ≤ w4 ∧ 5 ≤ w5 ∧
      (floodRetry cl e title false true tr []).events =
        [.floodCallback title w1 1 5, .floodSleep w1,
         .floodCallback title w2 2 5, .floodSleep w2,
         .floodCallback title w3 3 5, .floodSleep w3,
         .floodCallback title w4 4 5, .floodSleep w4,
         .floodCallback title w5 5 5, .floodSleep w5] ∧
      (floodRetry cl e title false true tr []).success = false := by
  obtain ⟨ws, tr2, hlen, hws, heq⟩ :=
    floodRetryAux_allFlood cl e title hfl 5 0 tr [] 0 rfl (by omega)
  obtain ⟨w1, w2, w3, w4, w5, rfl⟩ := list_len5 hlen
  refine ⟨w1, w2, w3, w4, w5,
    hws _ (by simp), hws _ (by simp), hws _ (by simp), hws _ (by simp),
    hws _ (by simp), ?_, ?_⟩
  · rw [show floodRetry cl e title false true tr [] =
        floodRetryAux cl e title false true 5 0 tr [] 0 from rfl, heq]
    simp [floodEvents, max_retries]
  · rw [show floodRetry cl e title false true tr [] =
        floodRetryAux cl e title false true 5 0 tr [] 0 from rfl, heq]

/-- C5 witness: the always-rate-limited channel conversation. -/
theorem floodwait_wait_and_callback_every_attempt_witness :
    ∃ w1 w2 w3 w4 w5 : Int,
      5 ≤ w1 ∧ 5 ≤ w2 ∧ 5 ≤ w3 ∧ 5 ≤ w4 ∧ 5 ≤ w5 ∧
      (floodRetry floodClient chanEnt "c" false true [] []).events =
        [.floodCallback "c" w1 1 5, .floodSleep w1,
         .floodCallback "c" w2 2 5, .floodSleep w2,
         .floodCallback "c" w3 3 5, .floodSleep w3,
         .floodCallback "c" w4 4 5, .floodSleep w4,
         .floodCallback "c" w5 5 5, .floodSleep w5] ∧
      (floodRetry floodClient chanEnt "c" false true [] []).success = false :=
  floodwait_wait_and_callback_every_attempt floodClient chanEnt "c" []
    (fun _ => ⟨some 0, rfl⟩)

/-- C5 counterexample: with a client that always rate-limits, the run makes 5
attempts, so only 4 waits are followed by a retry; yet 5 flood sleeps are
recorded — the last one after the final, bound-exhausting failure — which
contradicts the claim that the wait and callback happen only when a retry
follows. -/
theorem floodwait_sleep_after_final_failure_counterexample :
    (floodSleeps (floodRetry floodClient chanEnt "c" false true [] []).events).length = 5 ∧
    (floodRetry floodClient chanEnt "c" false true [] []).execs = 5 ∧
    (floodRetry floodClient chanEnt "c" false true [] []).success = false ∧
    (floodSleeps (floodRetry floodClient chanEnt "c" false true [] []).events).length ≠
      (floodRetry floodClient chanEnt "c" false true [] []).execs - 1 := by
  refine ⟨by decide, by decide, by decide, by decide⟩

/-! ## C2: legacy-group fallback -/

/-- C2 (amended): for a legacy group the generic delete-dialog fallback runs
whenever the primary `DeleteChatUserRequest` fails with any `RPCError` —
including a rate-limit `FloodWaitError`, which in Telethon is a subclass of
`RPCError`, so a rate-limited primary action triggers the fallback instead of
reaching the retry controller — and it runs exactly once, synchronously,
within the same attempt, with the fallback's own outcome (including failure)
being what propagates to the retry controller. -/
theorem legacy_fallback_on_any_rpcerror (cl : Client) (tr : List ClientCall)
    (e : Entity) (err : TgError) (hshape : e.shape = .chat)
    (hresp : cl.respond tr (.deleteChatUserReq e.id) = some err)
    (hrpc : err.isRPCError = true) :
    process_dialog cl tr e false =
      ((tr ++ [.deleteChatUserReq e.id]) ++ [.deleteDialogCall e],
        cl.respond (tr ++ [.deleteChatUserReq e.id]) (.deleteDialogCall e)) := by
  simp [process_dialog, hshape, leave_legacy_chat, runCall, hresp, hrpc]

/-- C2 witness: a legacy group whose primary action is rejected with a
permanent `RPCError` by a client that fails every request the same way. -/
theorem legacy_fallback_on_any_rpcerror_witness :
    process_dialog rpcClient [] chatEnt false =
      ([ClientCall.deleteChatUserReq (some 2)] ++ [ClientCall.deleteDialogCall chatEnt],
        rpcClient.respond [ClientCall.deleteChatUserReq (some 2)]
          (ClientCall.deleteDialogCall chatEnt)) := by
  have h := legacy_fallback_on_any_rpcerror rpcClient [] chatEnt TgError.rpc rfl rfl rfl
  simpa using h

/-- C2 counterexample: a client that rate-limits the primary
`DeleteChatUserRequest` and succeeds on everything else — the fallback
`client.delete_dialog` runs in the same attempt and the FloodWait never
reaches the retry controller (the attempt succeeds, zero callbacks, zero
retries), contradicting the claim that the fallback never runs on a
rate-limit error and that such an error is retried with backoff. -/
theorem legacy_fallback_on_floodwait_counterexample :
    (process_dialog floodPrimClient [] chatEnt false).1 =
      [ClientCall.deleteChatUserReq (some 2), ClientCall.deleteDialogCall chatEnt] ∧
    (process_dialog floodPrimClient [] chatEnt false).2 = none ∧
    (floodRetry floodPrimClient chatEnt "g" false true [] []).success = true ∧
    (floodRetry floodPrimClient chatEnt "g" false true [] []).execs = 1 ∧
    callbackAttempts (floodRetry floodPrimClient chatEnt "g" false true [] []).events = [] := by
  refine ⟨by decide, by decide, by decide, by decide, by decide⟩

/-! ## C8: permanent errors abandon after one attempt, loop continues -/

/-- C8: a conversation whose action raises a permanent (non-FloodWait)
`RPCError` on its first attempt is abandoned after exactly one attempt with
no rate-limit callback and no sleep, and the driver loop then continues with
the remaining conversations — the error never propagates to the loop level. -/
theorem permanent_error_single_attempt (cl : Client) (limit : Int)
    (f : CleanFilter) (hasCb : Bool) (d : Dialog) (rest : List Dialog)
    (st : RunState)
    (hnb : ¬(limit ≠ 0 ∧ (st.processed : Int) ≥ limit))
    (hm : dialog_matches_filter d d.entity (dialogTitle d) f = true)
    (hrpc : (process_dialog cl st.trace d.entity false).2 = some TgError.rpc) :
    (floodRetry cl d.entity (dialogTitle d) false hasCb st.trace st.events).execs = 1 ∧
    (floodRetry cl d.entity (dialogTitle d) false hasCb st.trace st.events).events =
      st.events ∧
    (floodRetry cl d.entity (dialogTitle d) false hasCb st.trace st.events).success =
      false ∧
    cleanGo cl false limit f hasCb (d :: rest) st =
      cleanGo cl false limit f hasCb rest
        { st with
          pulled := st.pulled + 1
          abandoned := st.abandoned + 1
          trace := (process_dialog cl st.trace d.entity false).1 } := by
  have hr : floodRetry cl d.entity (dialogTitle d) false hasCb st.trace st.events =
      ⟨(process_dialog cl st.trace d.entity false).1, st.events, 1, false⟩ :=
    floodRetryAux_rpc cl d.entity (dialogTitle d) false hasCb max_retries 0
      st.trace st.events 0 hrpc
  refine ⟨by rw [hr], by rw [hr], by rw [hr], ?_⟩
  rw [cleanGo]
  rw [if_neg (by simpa using hnb)]
  dsimp only
  rw [if_neg (by simp [hm])]
  rw [hr]
  simp

/-- C8 witness: a channel conversation whose action always raises a permanent
`RPCError`, followed by one more conversation in the source. -/
theorem permanent_error_single_attempt_witness :
    (floodRetry rpcClient chanDlg.entity (dialogTitle chanDlg) false true [] []).execs = 1 ∧
    (floodRetry rpcClient chanDlg.entity (dialogTitle chanDlg) false true [] []).events = [] ∧
    (floodRetry rpcClient chanDlg.entity (dialogTitle chanDlg) false true [] []).success =
      false ∧
    cleanGo rpcClient false 0 ⟨[], none, none, []⟩ true [chanDlg, chanDlg]
        ⟨0, 0, 0, 0, false, [], []⟩ =
      cleanGo rpcClient false 0 ⟨[], none, none, []⟩ true [chanDlg]
        { (⟨0, 0, 0, 0, false, [], []⟩ : RunState) with
          pulled := 0 + 1
          abandoned := 0 + 1
          trace := (process_dialog rpcClient [] chanDlg.entity false).1 } :=
  permanent_error_single_attempt rpcClient 0 ⟨[], none, none, []⟩ true chanDlg
    [chanDlg] ⟨0, 0, 0, 0, false, [], []⟩ (by simp) (by decide) rfl
